import Mathlib

/-!
Verification development for the routing-maps service.

The definitions below are a shallow embedding of the Python sources under
`app/`: pure functions become Lean functions, Python `int` arithmetic on
non-negative quantities becomes `Nat` arithmetic, Python `float` fields
become `ℚ`, fallible control flow becomes `Except`/`Option`, and the
side-effecting Celery task becomes an explicit function from an environment
(the results of its store reads and of the optimisation call) to a record
of its outputs (returned result, saved state, published payload).
-/

namespace RoutingMaps

/-! ## `app/utils/time_utils.py` -/

/-- Character for a single decimal digit, as produced by Python's
`f"{n:02d}"` formatting (each operand here is below 100, so the format is
exactly two digit characters). -/
def digitChar (n : Nat) : Char := Char.ofNat (48 + n)

/-- Two-digit zero-padded rendering of `n < 100`, modelling `f"{n:02d}"`. -/
def pad2 (n : Nat) : List Char := [digitChar (n / 10), digitChar (n % 10)]

/-- Model of `time_utils.minutes_to_time_str`: total minutes since midnight
to `"HH:MM"`, wrapping at 24 h (`minutes % 1440`). -/
def minutes_to_time_str (minutes : Nat) : String :=
  let m := minutes % 1440
  String.mk (pad2 (m / 60) ++ [':'] ++ pad2 (m % 60))

/-- Decimal value of a digit string, modelling Python `int(...)` on the
digit substrings produced by `split(":")`. -/
def digitsToNat (cs : List Char) : Nat :=
  cs.foldl (fun a c => a * 10 + (c.toNat - 48)) 0

/-- Model of `time_utils.time_str_to_minutes`: `"HH:MM"` to total minutes
since midnight (`h * 60 + m` after splitting on the colon). -/
def time_str_to_minutes (s : String) : Nat :=
  match s.data.splitOn ':' with
  | [h, m] => digitsToNat h * 60 + digitsToNat m
  | _ => 0

/-- Model of `time_utils.add_minutes_to_time`. -/
def add_minutes_to_time (time_str : String) (minutes : Nat) : String :=
  minutes_to_time_str (time_str_to_minutes time_str + minutes)

lemma digitChar_toNat {n : Nat} (h : n < 10) : (digitChar n).toNat = 48 + n := by
  interval_cases n <;> decide

lemma digitChar_ne_colon {n : Nat} (h : n < 10) : (digitChar n == ':') = false := by
  interval_cases n <;> decide

lemma splitOn_pad2 {a b : Nat} (ha : a < 100) (hb : b < 100) :
    (pad2 a ++ [':'] ++ pad2 b).splitOn ':' = [pad2 a, pad2 b] := by
  have h1 : a / 10 < 10 := by omega
  have h2 : a % 10 < 10 := Nat.mod_lt _ (by omega)
  have h3 : b / 10 < 10 := by omega
  have h4 : b % 10 < 10 := Nat.mod_lt _ (by omega)
  simp only [pad2, List.splitOn, List.cons_append, List.nil_append,
    List.splitOnP_cons, digitChar_ne_colon h1, digitChar_ne_colon h2,
    digitChar_ne_colon h3, digitChar_ne_colon h4, beq_self_eq_true,
    if_true, if_false, Bool.false_eq_true, List.splitOnP_nil,
    List.modifyHead]

lemma digitsToNat_pad2 {n : Nat} (h : n < 100) : digitsToNat (pad2 n) = n := by
  have h1 : n / 10 < 10 := by omega
  have h2 : n % 10 < 10 := Nat.mod_lt _ (by omega)
  simp only [digitsToNat, pad2, List.foldl_cons, List.foldl_nil,
    digitChar_toNat h1, digitChar_toNat h2]
  omega

/-- Round trip of the two clock-string conversions: parsing a rendered
clock string recovers the minute value modulo 1440. -/
theorem time_str_roundtrip (m : Nat) :
    time_str_to_minutes (minutes_to_time_str m) = m % 1440 := by
  have hm : m % 1440 < 1440 := Nat.mod_lt _ (by omega)
  have hh : m % 1440 / 60 < 100 := by omega
  have hmin : m % 1440 % 60 < 100 := Nat.lt_of_lt_of_le (Nat.mod_lt _ (by omega)) (by omega)
  simp only [minutes_to_time_str, time_str_to_minutes, String.data]
  rw [splitOn_pad2 hh hmin]
  show digitsToNat (pad2 (m % 1440 / 60)) * 60 + digitsToNat (pad2 (m % 1440 % 60)) = m % 1440
  rw [digitsToNat_pad2 hh, digitsToNat_pad2 hmin]
  omega

/-! ## `app/models/schemas.py`

Pydantic models become plain structures.  Python `float` coordinates become
`ℚ`; the validators' admissible ranges appear as hypotheses of theorems
that need them. -/

structure Location where
  lat : ℚ
  lng : ℚ
deriving DecidableEq

structure Stop where
  stop_id : String
  location : Location
  earliest_pickup : String
  latest_pickup : String
  service_time_minutes : Nat
deriving DecidableEq

instance : Inhabited Stop :=
  ⟨{ stop_id := "", location := ⟨0, 0⟩, earliest_pickup := "",
     latest_pickup := "", service_time_minutes := 0 }⟩

structure OptimizedStop where
  stop_id : String
  sequence : Nat
  location : Location
  arrival_time : String
  departure_time : String
deriving DecidableEq

instance : Inhabited OptimizedStop :=
  ⟨{ stop_id := "", sequence := 0, location := ⟨0, 0⟩,
     arrival_time := "", departure_time := "" }⟩

structure OptimizeRouteResponse where
  driver_id : String
  optimized_stops : List OptimizedStop
  total_distance_km : ℚ
  total_duration_minutes : Nat
  google_maps_url : String
  optimization_score : ℚ
deriving DecidableEq

/-- Calendar instant, the fields of a Python `datetime` that the sources
read (`.hour`, `.minute`, and the `%Y%m%d%H` components). -/
structure DateTime where
  year : Nat
  month : Nat
  day : Nat
  hour : Nat
  minute : Nat
deriving DecidableEq

/-- Square integer matrices from `build_distance_matrix` (entries are the
non-negative provider durations/distances or the 999 999 sentinel), read by
position; modelled as total index functions. -/
abbrev Mat : Type := Nat → Nat → Nat

/-- Index-function view of a concrete row-major matrix literal. -/
def matOf (rows : List (List Nat)) : Mat :=
  fun i j => (rows.getD i []).getD j 0

/-! ## `app/optimizer/route_builder.py` -/

/-- Model of `route_builder._build_maps_url`: the base URL followed by the
driver coordinate and then the stop coordinates of `ordered_stops` in list
order, `/`-separated.  Coordinate rendering (`f"{lat},{lng}"`) is modelled
with the canonical rational literal; no claim depends on the digit format
of a single coordinate, only on the structure of the URL. -/
def location_str (loc : Location) : String :=
  toString loc.lat ++ "," ++ toString loc.lng

def build_maps_url (driver_location : Location) (ordered_stops : List Stop) : String :=
  "https://www.google.com/maps/dir/" ++
    String.intercalate "/"
      (location_str driver_location :: ordered_stops.map (fun s => location_str s.location))

/-- Python `round(x, 2)` on a non-negative value; Python rounds ties to
even, which differs from this floor-based form only at exact half-cent
values, a case no claim touches. -/
def round2 (q : ℚ) : ℚ := ((q * 100 + 1 / 2).floor : ℚ) / 100

/-- Loop body of `build_final_route`: walking `ordered_stops` with the
running clock `current` (absolute minutes) and matrix row `prev` (the
visited node index; the next stop is always node `prev + 1`), it returns
the emitted `OptimizedStop`s, the final clock value and the accumulated
distance in metres. -/
def assemble (time_matrix distance_matrix : Mat) :
    Nat → Nat → List Stop → List OptimizedStop × Nat × Nat
  | current, _prev, [] => ([], current, 0)
  | current, prev, s :: rest =>
    let travel_mins := time_matrix prev (prev + 1) / 60
    let arrival_minutes := current + travel_mins
    let departure_minutes_stop := arrival_minutes + s.service_time_minutes
    let rest_result :=
      assemble time_matrix distance_matrix departure_minutes_stop (prev + 1) rest
    ({ stop_id := s.stop_id
       sequence := prev + 1
       location := s.location
       arrival_time := minutes_to_time_str arrival_minutes
       departure_time := minutes_to_time_str departure_minutes_stop } :: rest_result.1,
     rest_result.2.1,
     distance_matrix prev (prev + 1) + rest_result.2.2)

/-- Model of `route_builder.build_final_route`.  Matrices are index-aligned
to `ordered_stops` (row 0 = driver, row k = `ordered_stops[k-1]`); the
walk starts at `departure_minutes = hour * 60 + minute` and node 0. -/
def build_final_route (driver_id : String) (driver_location : Location)
    (ordered_stops : List Stop) (time_matrix distance_matrix : Mat)
    (departure_time : DateTime) : OptimizeRouteResponse :=
  let departure_minutes := departure_time.hour * 60 + departure_time.minute
  let walk := assemble time_matrix distance_matrix departure_minutes 0 ordered_stops
  { driver_id := driver_id
    optimized_stops := walk.1
    total_distance_km := round2 ((walk.2.2 : ℚ) / 1000)
    total_duration_minutes := walk.2.1 - departure_minutes
    google_maps_url := build_maps_url driver_location ordered_stops
    optimization_score := 0 }

/-! ## `app/optimizer/pipeline.py` -/

/-- Model of `pipeline._compute_naive_duration` (recursion over the stops
with the previous node index; leg `prev → prev+1` as in the source). -/
def naive_go (time_matrix : Mat) : Nat → List Stop → Nat
  | _prev, [] => 0
  | prev, s :: rest =>
    time_matrix prev (prev + 1) / 60 + s.service_time_minutes +
      naive_go time_matrix (prev + 1) rest

def compute_naive_duration (time_matrix : Mat) (stops : List Stop) : Nat :=
  naive_go time_matrix 0 stops

/-- Step 4 of `run_optimization`: `ordered_stops = [stops[i] for i in stop_indices]`. -/
def ordered_of (stop_indices : List Nat) (stops : List Stop) : List Stop :=
  stop_indices.map (fun i => stops.getD i default)

/-- Step 4 of `run_optimization`: `node_order = [0] + [i + 1 for i in stop_indices]`,
read by position. -/
def node_order_of (stop_indices : List Nat) : Nat → Nat :=
  fun k => ((0 : Nat) :: stop_indices.map (· + 1)).getD k 0

/-- Step 4 of `run_optimization`: matrix re-indexed to the optimised visit order. -/
def reindex (m : Mat) (stop_indices : List Nat) : Mat :=
  fun r c => m (node_order_of stop_indices r) (node_order_of stop_indices c)

/-- Model of `pipeline.run_optimization` from the point where the distance
matrices and the solver's answer are in hand: `build_distance_matrix` is an
external provider RPC and `solve_vrp` delegates to the external OR-Tools
library, so the matrices and the returned index list `stop_indices` are
parameters.  Steps 4–6 of the source (reorder stops, re-index matrices,
assemble, score) are modelled exactly. -/
def run_optimization_with (stop_indices : List Nat) (driver_id : String)
    (driver_location : Location) (stops : List Stop)
    (time_matrix distance_matrix : Mat) (departure_time : DateTime) :
    OptimizeRouteResponse :=
  let response := build_final_route driver_id driver_location
    (ordered_of stop_indices stops) (reindex time_matrix stop_indices)
    (reindex distance_matrix stop_indices) departure_time
  let naive_duration := compute_naive_duration time_matrix stops
  if response.total_duration_minutes > 0 then
    { response with
        optimization_score :=
          round2 ((naive_duration : ℚ) / (response.total_duration_minutes : ℚ)) }
  else response

/-! ## `app/optimizer/distance_matrix.py` — cache key

`_build_cache_key` JSON-serialises `{"locs": sorted(locations), "hour":
departure_time.strftime("%Y%m%d%H")}` and MD5-hashes it.  Serialisation and
hashing are deterministic functions of that payload, so the key is modelled
as the payload itself: the sorted coordinate list (Python sorts `(lat,
lng)` tuples lexicographically) paired with the `(year, month, day, hour)`
components the `%Y%m%d%H` format keeps. -/

abbrev Coordinate : Type := ℚ × ℚ

/-- Lexicographic comparison of Python `(lat, lng)` tuples. -/
def coord_le (a b : Coordinate) : Prop :=
  a.1 < b.1 ∨ (a.1 = b.1 ∧ a.2 ≤ b.2)

instance : DecidableRel coord_le := fun a b =>
  inferInstanceAs (Decidable (a.1 < b.1 ∨ (a.1 = b.1 ∧ a.2 ≤ b.2)))

instance : IsTotal Coordinate coord_le :=
  ⟨fun a b => by
    rcases lt_trichotomy a.1 b.1 with h | h | h
    · exact Or.inl (Or.inl h)
    · rcases le_total a.2 b.2 with h2 | h2
      · exact Or.inl (Or.inr ⟨h, h2⟩)
      · exact Or.inr (Or.inr ⟨h.symm, h2⟩)
    · exact Or.inr (Or.inl h)⟩

instance : IsTrans Coordinate coord_le :=
  ⟨fun a b c hab hbc => by
    rcases hab with h1 | ⟨h1, h1'⟩ <;> rcases hbc with h2 | ⟨h2, h2'⟩
    · exact Or.inl (h1.trans h2)
    · exact Or.inl (h2 ▸ h1)
    · exact Or.inl (h1 ▸ h2)
    · exact Or.inr ⟨h1.trans h2, h1'.trans h2'⟩⟩

instance : IsAntisymm Coordinate coord_le :=
  ⟨fun a b hab hba => by
    rcases hab with h1 | ⟨h1, h1'⟩ <;> rcases hba with h2 | ⟨h2, h2'⟩
    · exact absurd (h1.trans h2) (lt_irrefl _)
    · exact absurd h1 (h2 ▸ lt_irrefl _)
    · exact absurd h2 (h1 ▸ lt_irrefl _)
    · exact Prod.ext h1 (le_antisymm h1' h2')⟩

/-- Python `sorted(locations)`. -/
def sort_coords (locations : List Coordinate) : List Coordinate :=
  List.insertionSort coord_le locations

/-- The components of the departure instant kept by `strftime("%Y%m%d%H")`. -/
def hour_key (d : DateTime) : Nat × Nat × Nat × Nat :=
  (d.year, d.month, d.day, d.hour)

/-- Model of `distance_matrix._build_cache_key` at the payload level (see
the section comment: MD5 and JSON are deterministic in the payload). -/
def build_cache_key (locations : List Coordinate) (departure_time : DateTime) :
    List Coordinate × (Nat × Nat × Nat × Nat) :=
  (sort_coords locations, hour_key departure_time)

/-! ## `app/config.py` and `app/workers/delay_detector.py`

The three re-routing thresholds of `Settings`; the source spells them in
upper case, rendered here in lower case.  Numeric driver-state fields are
Python floats, modelled as `ℚ`. -/

structure Settings where
  delay_threshold_minutes : ℚ := 5
  traffic_increase_ratio : ℚ := 6 / 5
  min_reroute_interval_seconds : ℚ := 300
deriving DecidableEq

def default_settings : Settings := {}

structure GpsFix where
  lat : ℚ
  lng : ℚ
  timestamp : String
deriving DecidableEq

/-- One JSON entry of `DriverState.current_route`.  The worker persists
`OptimizedStop.model_dump()` dicts there, which carry no pickup-window or
service-time keys; `_remaining_stops` reads those keys with `dict.get`
defaults, so they are `Option`-valued here (`none` = key absent). -/
structure RouteEntry where
  stop_id : String
  sequence : Nat
  location : Location
  arrival_time : String
  departure_time : String
  earliest_pickup : Option String
  latest_pickup : Option String
  service_time_minutes : Option Nat
deriving DecidableEq

/-- Model of `app/state/driver_state.py`'s `DriverState` dataclass. -/
structure DriverState where
  driver_id : String
  current_route : List RouteEntry
  last_gps : Option GpsFix
  completed_stop_ids : List String
  remaining_duration : ℚ
  original_remaining_duration : ℚ
  schedule_delay_minutes : ℚ
  last_reroute_timestamp : Option ℚ
  stops_changed : Bool
  status : String
deriving DecidableEq

/-- Rules 1–3 of `should_reroute`, evaluated in source order once the
cooldown has not suppressed them. -/
def reroute_rules (cfg : Settings) (driver_state : DriverState) : Bool × String :=
  if driver_state.schedule_delay_minutes > cfg.delay_threshold_minutes then
    (true, "traffic_delay")
  else if driver_state.original_remaining_duration > 0 ∧
      driver_state.remaining_duration >
        driver_state.original_remaining_duration * cfg.traffic_increase_ratio then
    (true, "traffic_delay")
  else if driver_state.stops_changed then (true, "stop_modified")
  else (false, "")

/-- Model of `delay_detector.should_reroute`; `now` stands for the
`time.time()` call in Rule 0. -/
def should_reroute (cfg : Settings) (now : ℚ) (driver_state : DriverState) :
    Bool × String :=
  match driver_state.last_reroute_timestamp with
  | some last =>
    if now - last < cfg.min_reroute_interval_seconds then (false, "")
    else reroute_rules cfg driver_state
  | none => reroute_rules cfg driver_state

/-! ## `app/workers/tasks.py` -/

/-- Pydantic `OptimizedStop.model_dump()` as stored into
`DriverState.current_route`: exactly the five `OptimizedStop` keys, hence
no pickup-window or service-time keys. -/
def OptimizedStop.model_dump (s : OptimizedStop) : RouteEntry :=
  { stop_id := s.stop_id
    sequence := s.sequence
    location := s.location
    arrival_time := s.arrival_time
    departure_time := s.departure_time
    earliest_pickup := none
    latest_pickup := none
    service_time_minutes := none }

/-- Model of `tasks._remaining_stops`: Stop objects for the route entries
whose id is not completed, window and service fields read with `dict.get`
defaults `"00:00"`, `"23:59"` and `10`. -/
def remaining_stops (state : DriverState) : List Stop :=
  (state.current_route.filter
      (fun e => !state.completed_stop_ids.contains e.stop_id)).map
    (fun e =>
      { stop_id := e.stop_id
        location := e.location
        earliest_pickup := e.earliest_pickup.getD "00:00"
        latest_pickup := e.latest_pickup.getD "23:59"
        service_time_minutes := e.service_time_minutes.getD 10 })

structure TaskResult where
  rerouted : Bool
  reason : String
deriving DecidableEq

/-- A `route_updated` event published on the driver's Pub/Sub channel. -/
structure PublishedEvent where
  channel : String
  payload_type : String
  reason : String
  optimized_stops : List OptimizedStop
  total_duration_minutes : Nat
  google_maps_url : String
deriving DecidableEq

def reroute_channel (driver_id : String) : String := "reroute:" ++ driver_id

/-- Environment of one `process_gps_update` invocation: the values its two
`get_driver_state` reads produce, the outcome of the `run_optimization`
call (`none` = the call raised), the wall clock, and whether the Pub/Sub
client is reachable. -/
structure WorkerEnv where
  first_load : Option DriverState
  reload_after_complete : Option DriverState
  opt_result : Option OptimizeRouteResponse
  now : ℚ
  publish_available : Bool

/-- Everything observable about one `process_gps_update` invocation: the
value returned to the queue (or the exception it raises), the state passed
to `save_driver_state`, and the published event. -/
structure TaskOutcome where
  result : Except String TaskResult
  saved : Option DriverState
  published : Option PublishedEvent

/-- Steps 4–7 of `process_gps_update` (trigger evaluation onward), reached
with the state object `state` as mutated by step 3. -/
def gps_steps_4_onward (env : WorkerEnv) (driver_id : String)
    (state : DriverState) : TaskOutcome :=
  let tr := should_reroute default_settings env.now state
  if tr.1 = false then
    { result := .ok ⟨false, tr.2⟩, saved := some state, published := none }
  else if (remaining_stops state).isEmpty then
    { result := .ok ⟨false, "no_remaining_stops"⟩, saved := some state,
      published := none }
  else
    match env.opt_result with
    | none =>
      { result := .ok ⟨false, "optimization_failed"⟩, saved := some state,
        published := none }
    | some new_route =>
      let state' := { state with
        current_route := new_route.optimized_stops.map OptimizedStop.model_dump
        remaining_duration := (new_route.total_duration_minutes : ℚ)
        last_reroute_timestamp := some env.now
        stops_changed := false }
      { result := .ok ⟨true, tr.2⟩
        saved := some state'
        published :=
          if env.publish_available then
            some { channel := reroute_channel driver_id
                   payload_type := "route_updated"
                   reason := tr.2
                   optimized_stops := new_route.optimized_stops
                   total_duration_minutes := new_route.total_duration_minutes
                   google_maps_url := new_route.google_maps_url }
          else none }

/-- Model of `tasks.process_gps_update`.  Step 1 (the GPS write) is a store
side effect with no influence on the returned value and is not represented.
In step 3 the source does `state = get_driver_state(driver_id)` and then
unconditionally `state.stops_changed = True`; when the reload returns
`None` that attribute write raises, modelled by the `.error` branch. -/
def process_gps_update (env : WorkerEnv) (driver_id : String) (_lat _lng : ℚ)
    (_timestamp : String) (completed_stop_id : Option String) : TaskOutcome :=
  match env.first_load with
  | none => { result := .ok ⟨false, "no_state"⟩, saved := none, published := none }
  | some state =>
    if completed_stop_id.getD "" ≠ "" then
      match env.reload_after_complete with
      | none =>
        { result := .error "AttributeError: NoneType object has no attribute stops_changed"
          saved := none, published := none }
      | some reloaded =>
        gps_steps_4_onward env driver_id { reloaded with stops_changed := true }
    else
      gps_steps_4_onward env driver_id state

/-! ## Helper lemmas about the route walk -/

lemma assemble_final_clock (time_matrix distance_matrix : Mat) :
    ∀ (l : List Stop) (current prev : Nat),
      (assemble time_matrix distance_matrix current prev l).2.1 =
        current + naive_go time_matrix prev l := by
  intro l
  induction l with
  | nil => intro current prev; simp [assemble, naive_go]
  | cons s rest ih =>
    intro current prev
    simp only [assemble, naive_go, ih]
    omega

lemma naive_go_ge_service_sum (time_matrix : Mat) :
    ∀ (l : List Stop) (prev : Nat),
      (l.map (fun s => s.service_time_minutes)).sum ≤ naive_go time_matrix prev l := by
  intro l
  induction l with
  | nil => intro prev; simp [naive_go]
  | cons s rest ih =>
    intro prev
    have := ih (prev + 1)
    simp only [naive_go, List.map_cons, List.sum_cons]
    omega

lemma assemble_map_stop_id (time_matrix distance_matrix : Mat) :
    ∀ (l : List Stop) (current prev : Nat),
      ((assemble time_matrix distance_matrix current prev l).1).map
          (fun o => o.stop_id) =
        l.map (fun s => s.stop_id) := by
  intro l
  induction l with
  | nil => intro current prev; simp [assemble]
  | cons s rest ih =>
    intro current prev
    simp only [assemble, List.map_cons, ih]

lemma assemble_map_sequence (time_matrix distance_matrix : Mat) :
    ∀ (l : List Stop) (current prev : Nat),
      ((assemble time_matrix distance_matrix current prev l).1).map
          (fun o => o.sequence) =
        List.range' (prev + 1) l.length := by
  intro l
  induction l with
  | nil => intro current prev; simp [assemble]
  | cons s rest ih =>
    intro current prev
    simp only [assemble, List.map_cons, ih, List.length_cons, List.range'_succ]

lemma assemble_length (time_matrix distance_matrix : Mat) :
    ∀ (l : List Stop) (current prev : Nat),
      ((assemble time_matrix distance_matrix current prev l).1).length = l.length := by
  intro l
  induction l with
  | nil => intro current prev; simp [assemble]
  | cons s rest ih =>
    intro current prev
    simp only [assemble, List.length_cons, ih]

/-- Every emitted stop's two clock strings are renderings of an absolute
arrival minute `a` and of `a + service_time` of the corresponding input
stop. -/
lemma assemble_schedule (time_matrix distance_matrix : Mat) :
    ∀ (l : List Stop) (current prev k : Nat), k < l.length →
      ∃ a,
        (((assemble time_matrix distance_matrix current prev l).1).getD k
            default).arrival_time = minutes_to_time_str a ∧
        (((assemble time_matrix distance_matrix current prev l).1).getD k
            default).departure_time =
          minutes_to_time_str (a + (l.getD k default).service_time_minutes) := by
  intro l
  induction l with
  | nil => intro current prev k hk; simp at hk
  | cons s rest ih =>
    intro current prev k hk
    match k with
    | 0 =>
      refine ⟨current + time_matrix prev (prev + 1) / 60, ?_, ?_⟩ <;>
        simp [assemble]
    | k + 1 =>
      have hk' : k < rest.length := by simpa using hk
      obtain ⟨a, h1, h2⟩ := ih (current + time_matrix prev (prev + 1) / 60 +
        s.service_time_minutes) (prev + 1) k hk'
      exact ⟨a, by simpa [assemble] using h1, by simpa [assemble] using h2⟩

lemma naive_go_congr (tm1 tm2 : Mat) :
    ∀ (l : List Stop) (prev : Nat),
      (∀ i, i < l.length → tm1 (prev + i) (prev + i + 1) = tm2 (prev + i) (prev + i + 1)) →
      naive_go tm1 prev l = naive_go tm2 prev l := by
  intro l
  induction l with
  | nil => intro prev _; simp [naive_go]
  | cons s rest ih =>
    intro prev h
    have h0 := h 0 (by simp)
    simp only [Nat.add_zero] at h0
    have hrest : ∀ i, i < rest.length →
        tm1 (prev + 1 + i) (prev + 1 + i + 1) = tm2 (prev + 1 + i) (prev + 1 + i + 1) := by
      intro i hi
      have h' := h (i + 1) (by simp only [List.length_cons]; omega)
      have e1 : prev + (i + 1) = prev + 1 + i := by omega
      rw [e1] at h'
      exact h'
    simp only [naive_go, h0, ih (prev + 1) hrest]

lemma map_getD_range (l : List Stop) :
    (List.range l.length).map (fun i => l.getD i default) = l := by
  induction l with
  | nil => simp
  | cons a t ih =>
    rw [List.length_cons, List.range_succ_eq_map, List.map_cons, List.map_map]
    have hfun : ((fun i => (a :: t).getD i default) ∘ Nat.succ) =
        fun i => t.getD i default := by
      funext i
      simp [List.getD_cons_succ]
    have h2 : (List.range t.length).map
        ((fun i => (a :: t).getD i default) ∘ Nat.succ) = t := by
      rw [hfun]
      exact ih
    rw [h2]
    rfl

lemma node_order_getD (n : Nat) :
    ∀ k, k ≤ n → ((0 : Nat) :: (List.range n).map (· + 1)).getD k 0 = k := by
  intro k hk
  match k with
  | 0 => rfl
  | k + 1 =>
    have hk' : k < n := by omega
    rw [List.getD_cons_succ, List.getD_eq_getElem _ _ (by simpa using hk'),
      List.getElem_map, List.getElem_range]

lemma reroute_rules_eq (cfg : Settings) (s : DriverState) :
    reroute_rules cfg s =
      if s.schedule_delay_minutes > cfg.delay_threshold_minutes ∨
          (s.original_remaining_duration > 0 ∧
            s.remaining_duration >
              s.original_remaining_duration * cfg.traffic_increase_ratio) then
        (true, "traffic_delay")
      else if s.stops_changed then (true, "stop_modified")
      else (false, "") := by
  unfold reroute_rules
  split_ifs <;> first | rfl | tauto

/-- C3: `should_reroute` returns `(false, "")` whenever the cooldown is
active (a last re-route timestamp less than `min_reroute_interval_seconds`
before `now`), regardless of all other fields; otherwise it returns
`(true, "traffic_delay")` iff the strict schedule-delay rule or the strict
traffic-increase rule (with a positive baseline) fires, otherwise
`(true, "stop_modified")` iff `stops_changed`, otherwise `(false, "")`. -/
theorem C3_should_reroute_characterization (cfg : Settings) (now : ℚ)
    (s : DriverState) :
    ((∃ last, s.last_reroute_timestamp = some last ∧
        now - last < cfg.min_reroute_interval_seconds) →
      should_reroute cfg now s = (false, "")) ∧
    ((∀ last, s.last_reroute_timestamp = some last →
        ¬ now - last < cfg.min_reroute_interval_seconds) →
      ((should_reroute cfg now s = (true, "traffic_delay") ↔
          (s.schedule_delay_minutes > cfg.delay_threshold_minutes ∨
            (s.original_remaining_duration > 0 ∧
              s.remaining_duration >
                s.original_remaining_duration * cfg.traffic_increase_ratio))) ∧
        (should_reroute cfg now s = (true, "stop_modified") ↔
          (¬ (s.schedule_delay_minutes > cfg.delay_threshold_minutes ∨
              (s.original_remaining_duration > 0 ∧
                s.remaining_duration >
                  s.original_remaining_duration * cfg.traffic_increase_ratio)) ∧
            s.stops_changed = true)) ∧
        (should_reroute cfg now s = (false, "") ↔
          (¬ (s.schedule_delay_minutes > cfg.delay_threshold_minutes ∨
              (s.original_remaining_duration > 0 ∧
                s.remaining_duration >
                  s.original_remaining_duration * cfg.traffic_increase_ratio)) ∧
            s.stops_changed = false)))) := by
  constructor
  · rintro ⟨last, hlast, hlt⟩
    unfold should_reroute
    rw [hlast]
    show (if now - last < cfg.min_reroute_interval_seconds then ((false, "") : Bool × String)
        else reroute_rules cfg s) = (false, "")
    rw [if_pos hlt]
  · intro hnc
    have hr : should_reroute cfg now s = reroute_rules cfg s := by
      unfold should_reroute
      cases hlast : s.last_reroute_timestamp with
      | none => rfl
      | some last =>
        show (if now - last < cfg.min_reroute_interval_seconds then ((false, "") : Bool × String)
            else reroute_rules cfg s) = reroute_rules cfg s
        rw [if_neg (hnc last hlast)]
    rw [hr, reroute_rules_eq]
    split_ifs with hA hC
    · refine ⟨⟨fun _ => hA, fun _ => rfl⟩,
        ⟨fun h => absurd (congrArg Prod.snd h) (by decide),
          fun h => absurd hA h.1⟩,
        ⟨fun h => absurd (congrArg Prod.fst h) (by decide),
          fun h => absurd hA h.1⟩⟩
    · refine ⟨⟨fun h => absurd (congrArg Prod.snd h) (by decide),
          fun h => absurd h hA⟩,
        ⟨fun _ => ⟨hA, hC⟩, fun _ => rfl⟩,
        ⟨fun h => absurd (congrArg Prod.fst h) (by decide), fun h => ?_⟩⟩
      rw [hC] at h
      exact absurd h.2 (by decide)
    · rw [Bool.not_eq_true] at hC
      refine ⟨⟨fun h => absurd (congrArg Prod.fst h) (by decide),
          fun h => absurd h hA⟩,
        ⟨fun h => absurd (congrArg Prod.fst h) (by decide), fun h => ?_⟩,
        ⟨fun _ => ⟨hA, hC⟩, fun _ => rfl⟩⟩
      rw [hC] at h
      exact absurd h.2 (by decide)

def st_delay : DriverState :=
  { driver_id := "d1", current_route := [], last_gps := none,
    completed_stop_ids := [], remaining_duration := 0,
    original_remaining_duration := 0, schedule_delay_minutes := 10,
    last_reroute_timestamp := none, stops_changed := false, status := "active" }

theorem C3_should_reroute_characterization_witness :
    should_reroute default_settings 0 st_delay = (true, "traffic_delay") :=
  (((C3_should_reroute_characterization default_settings 0 st_delay).2
      (fun _ h => nomatch h)).1).mpr (Or.inl (by decide))

/-- C8: the cache key is invariant under permutation of the coordinate
list and under any change of the departure instant that keeps its
`%Y%m%d%H` components; two instants with different calendar-hour
components (such as 09:59 and 10:00) give different keys. -/
theorem C8_cache_key_invariance (l₁ l₂ : List Coordinate) (d₁ d₂ : DateTime) :
    (l₁.Perm l₂ → hour_key d₁ = hour_key d₂ →
      build_cache_key l₁ d₁ = build_cache_key l₂ d₂) ∧
    (hour_key d₁ ≠ hour_key d₂ →
      build_cache_key l₁ d₁ ≠ build_cache_key l₁ d₂) := by
  constructor
  · intro hp hh
    unfold build_cache_key sort_coords
    have hsort : List.insertionSort coord_le l₁ = List.insertionSort coord_le l₂ :=
      List.eq_of_perm_of_sorted
        ((List.perm_insertionSort coord_le l₁).trans
          (hp.trans (List.perm_insertionSort coord_le l₂).symm))
        (List.sorted_insertionSort coord_le l₁)
        (List.sorted_insertionSort coord_le l₂)
    rw [hsort, hh]
  · intro hh he
    exact hh (congrArg Prod.snd he)

theorem C8_cache_key_invariance_witness :
    build_cache_key [((1 : ℚ), (2 : ℚ)), ((3 : ℚ), (4 : ℚ))] ⟨2026, 10, 12, 9, 59⟩ =
      build_cache_key [((3 : ℚ), (4 : ℚ)), ((1 : ℚ), (2 : ℚ))] ⟨2026, 10, 12, 9, 5⟩ :=
  (C8_cache_key_invariance _ _ _ _).1 (List.Perm.swap _ _ _) rfl

/-- C9: the response URL is the fixed base followed by exactly the driver
coordinate and then the ordered stops' coordinates, `/`-separated; it does
not depend on the stops' `stop_id` fields at all. -/
theorem C9_maps_url_structure (driver_id : String) (driver_location : Location)
    (ordered_stops : List Stop) (tm dm : Mat) (dep : DateTime) :
    (build_final_route driver_id driver_location ordered_stops tm dm dep).google_maps_url =
        "https://www.google.com/maps/dir/" ++
          String.intercalate "/"
            (location_str driver_location ::
              ordered_stops.map (fun s => location_str s.location)) ∧
    ∀ rename : Stop → String,
      build_maps_url driver_location
          (ordered_stops.map (fun s => { s with stop_id := rename s })) =
        build_maps_url driver_location ordered_stops := by
  constructor
  · rfl
  · intro rename
    unfold build_maps_url
    rw [List.map_map]
    rfl

/-- C2 (amended): for every emitted stop, the parsed departure clock equals
the parsed arrival clock plus the stop's service time modulo 1440, and the
departure is strictly later than the arrival whenever the service interval
does not cross midnight. -/
theorem C2_service_time_congruence (driver_id : String)
    (driver_location : Location) (ordered_stops : List Stop) (tm dm : Mat)
    (dep : DateTime) (k : Nat) (hk : k < ordered_stops.length)
    (hsvc : 1 ≤ (ordered_stops.getD k default).service_time_minutes) :
    time_str_to_minutes
        (((build_final_route driver_id driver_location ordered_stops tm dm
            dep).optimized_stops.getD k default).departure_time) =
      (time_str_to_minutes
          (((build_final_route driver_id driver_location ordered_stops tm dm
              dep).optimized_stops.getD k default).arrival_time) +
        (ordered_stops.getD k default).service_time_minutes) % 1440 ∧
    (time_str_to_minutes
          (((build_final_route driver_id driver_location ordered_stops tm dm
              dep).optimized_stops.getD k default).arrival_time) +
        (ordered_stops.getD k default).service_time_minutes < 1440 →
      time_str_to_minutes
          (((build_final_route driver_id driver_location ordered_stops tm dm
              dep).optimized_stops.getD k default).arrival_time) <
        time_str_to_minutes
          (((build_final_route driver_id driver_location ordered_stops tm dm
              dep).optimized_stops.getD k default).departure_time)) := by
  have hstops : (build_final_route driver_id driver_location ordered_stops tm dm
      dep).optimized_stops =
      (assemble tm dm (dep.hour * 60 + dep.minute) 0 ordered_stops).1 := rfl
  obtain ⟨a, ha, hd⟩ := assemble_schedule tm dm ordered_stops
    (dep.hour * 60 + dep.minute) 0 k hk
  rw [hstops, ha, hd, time_str_roundtrip, time_str_roundtrip]
  constructor
  · omega
  · intro h
    omega

def stop_w : Stop :=
  { stop_id := "w1", location := ⟨1, 1⟩, earliest_pickup := "00:00",
    latest_pickup := "23:59", service_time_minutes := 10 }

theorem C2_service_time_congruence_witness :
    time_str_to_minutes
        (((build_final_route "d" ⟨0, 0⟩ [stop_w] (matOf [[0, 300], [300, 0]])
            (matOf [[0, 0], [0, 0]])
            ⟨2030, 6, 15, 9, 0⟩).optimized_stops.getD 0 default).departure_time) =
      (time_str_to_minutes
          (((build_final_route "d" ⟨0, 0⟩ [stop_w] (matOf [[0, 300], [300, 0]])
              (matOf [[0, 0], [0, 0]])
              ⟨2030, 6, 15, 9, 0⟩).optimized_stops.getD 0 default).arrival_time) +
        (([stop_w] : List Stop).getD 0 default).service_time_minutes) % 1440 :=
  (C2_service_time_congruence "d" ⟨0, 0⟩ [stop_w] (matOf [[0, 300], [300, 0]])
    (matOf [[0, 0], [0, 0]]) ⟨2030, 6, 15, 9, 0⟩ 0 (by decide) (by decide)).1

/-- C2 counterexample: a stop reached at 23:55 with a 10-minute service
time departs at 00:05, which as a clock value is strictly earlier than the
arrival, so `departure_time > arrival_time` fails as stated. -/
theorem C2_counterexample_midnight_wrap :
    ((build_final_route "d" ⟨0, 0⟩ [stop_w] (matOf [[0, 300], [300, 0]])
        (matOf [[0, 0], [0, 0]]) ⟨2030, 6, 15, 23, 50⟩).optimized_stops.map
        (fun o => (o.arrival_time, o.departure_time))) = [("23:55", "00:05")] ∧
      time_str_to_minutes "00:05" < time_str_to_minutes "23:55" := by
  decide

def stop0_tw : Stop :=
  { stop_id := "s0", location := ⟨1, 1⟩, earliest_pickup := "09:30",
    latest_pickup := "10:30", service_time_minutes := 10 }

def stop1_tw : Stop :=
  { stop_id := "s1", location := ⟨2, 2⟩, earliest_pickup := "10:00",
    latest_pickup := "11:00", service_time_minutes := 10 }

def tm_tw : Mat := matOf [[0, 1200, 5400], [1200, 0, 1800], [5400, 1800, 0]]

def resp_tw : OptimizeRouteResponse :=
  run_optimization_with [0, 1] "d1" ⟨0, 0⟩ [stop0_tw, stop1_tw] tm_tw
    (matOf [[0, 0, 0], [0, 0, 0], [0, 0, 0]]) ⟨2030, 6, 15, 9, 0⟩

/-- C1 evaluated at the window-forcing scenario (departure 09:00, 20 min
to s0, s0 window opening 09:30, feasible order `[s0, s1]`): the assembler
adds no wait, so the reported arrival at s0 is 09:20, before the window
opens, not the 09:30 the claim states; s1 is likewise reported at 10:00,
not 10:20. -/
theorem C1_arrival_before_window_opening :
    (resp_tw.optimized_stops.getD 0 default).stop_id = "s0" ∧
    (resp_tw.optimized_stops.getD 0 default).arrival_time = "09:20" ∧
    time_str_to_minutes ((resp_tw.optimized_stops.getD 0 default).arrival_time) <
      time_str_to_minutes stop0_tw.earliest_pickup ∧
    (resp_tw.optimized_stops.getD 1 default).arrival_time = "10:00" := by
  decide

lemma ordered_of_perm (stop_indices : List Nat) (stops : List Stop)
    (hperm : stop_indices.Perm (List.range stops.length)) :
    (ordered_of stop_indices stops).Perm stops := by
  have h1 := hperm.map (fun i => stops.getD i default)
  rwa [map_getD_range] at h1

lemma run_optimization_with_stops (stop_indices : List Nat) (driver_id : String)
    (driver_location : Location) (stops : List Stop) (tm dm : Mat) (dep : DateTime) :
    (run_optimization_with stop_indices driver_id driver_location stops tm dm
        dep).optimized_stops =
      (assemble (reindex tm stop_indices) (reindex dm stop_indices)
        (dep.hour * 60 + dep.minute) 0 (ordered_of stop_indices stops)).1 := by
  simp only [run_optimization_with]
  split <;> rfl

lemma run_optimization_with_total (stop_indices : List Nat) (driver_id : String)
    (driver_location : Location) (stops : List Stop) (tm dm : Mat) (dep : DateTime) :
    (run_optimization_with stop_indices driver_id driver_location stops tm dm
        dep).total_duration_minutes =
      naive_go (reindex tm stop_indices) 0 (ordered_of stop_indices stops) := by
  have h1 : (run_optimization_with stop_indices driver_id driver_location stops
      tm dm dep).total_duration_minutes =
      (build_final_route driver_id driver_location (ordered_of stop_indices stops)
        (reindex tm stop_indices) (reindex dm stop_indices)
        dep).total_duration_minutes := by
    simp only [run_optimization_with]
    split <;> rfl
  rw [h1]
  show (assemble (reindex tm stop_indices) (reindex dm stop_indices)
      (dep.hour * 60 + dep.minute) 0 (ordered_of stop_indices stops)).2.1 -
      (dep.hour * 60 + dep.minute) = _
  rw [assemble_final_clock]
  omega

lemma run_optimization_with_score (stop_indices : List Nat) (driver_id : String)
    (driver_location : Location) (stops : List Stop) (tm dm : Mat) (dep : DateTime)
    (hpos : 0 < (build_final_route driver_id driver_location
        (ordered_of stop_indices stops) (reindex tm stop_indices)
        (reindex dm stop_indices) dep).total_duration_minutes) :
    (run_optimization_with stop_indices driver_id driver_location stops tm dm
        dep).optimization_score =
      round2 ((compute_naive_duration tm stops : ℚ) /
        ((build_final_route driver_id driver_location (ordered_of stop_indices stops)
            (reindex tm stop_indices) (reindex dm stop_indices)
            dep).total_duration_minutes : ℚ)) := by
  simp only [run_optimization_with]
  rw [if_pos hpos]

lemma run_total_eq_build (stop_indices : List Nat) (driver_id : String)
    (driver_location : Location) (stops : List Stop) (tm dm : Mat) (dep : DateTime) :
    (run_optimization_with stop_indices driver_id driver_location stops tm dm
        dep).total_duration_minutes =
      (build_final_route driver_id driver_location (ordered_of stop_indices stops)
        (reindex tm stop_indices) (reindex dm stop_indices)
        dep).total_duration_minutes := by
  simp only [run_optimization_with]
  split <;> rfl

lemma round2_ge_one {q : ℚ} (h : 1 ≤ q) : 1 ≤ round2 q := by
  unfold round2
  rw [le_div_iff₀ (by norm_num : (0 : ℚ) < 100), one_mul]
  have h2 : ((100 : ℤ) : ℚ) ≤ q * 100 + 1 / 2 := by push_cast; linarith
  have h3 := Int.le_floor.mpr h2
  exact_mod_cast h3

/-- C6 (amended): for any permutation the solver may return, the response's
total duration is at least the sum of the stops' service times; it equals
the naive duration when the solver returns the input order; and whenever
the total is positive and does not exceed the naive duration the
optimization score is at least 1.  (The unconditional upper bound by the
naive duration fails for an adversarial permutation — see the
counterexample.) -/
theorem C6_duration_bounds (stop_indices : List Nat) (driver_id : String)
    (driver_location : Location) (stops : List Stop) (tm dm : Mat)
    (dep : DateTime) (hperm : stop_indices.Perm (List.range stops.length)) :
    (stops.map (fun s => s.service_time_minutes)).sum ≤
        (run_optimization_with stop_indices driver_id driver_location stops tm
          dm dep).total_duration_minutes ∧
    (stop_indices = List.range stops.length →
      (run_optimization_with stop_indices driver_id driver_location stops tm dm
          dep).total_duration_minutes = compute_naive_duration tm stops) ∧
    (0 < (run_optimization_with stop_indices driver_id driver_location stops tm
        dm dep).total_duration_minutes →
      (run_optimization_with stop_indices driver_id driver_location stops tm dm
          dep).total_duration_minutes ≤ compute_naive_duration tm stops →
      1 ≤ (run_optimization_with stop_indices driver_id driver_location stops tm
          dm dep).optimization_score) := by
  refine ⟨?_, ?_, ?_⟩
  · rw [run_optimization_with_total]
    have hsum : (stops.map (fun s => s.service_time_minutes)).sum =
        ((ordered_of stop_indices stops).map (fun s => s.service_time_minutes)).sum :=
      (((ordered_of_perm _ _ hperm).map _).sum_eq).symm
    rw [hsum]
    exact naive_go_ge_service_sum _ _ _
  · intro hid
    rw [run_optimization_with_total]
    have hord : ordered_of stop_indices stops = stops := by
      unfold ordered_of
      rw [hid, map_getD_range]
    rw [hord]
    unfold compute_naive_duration
    apply naive_go_congr
    intro i hi
    unfold reindex node_order_of
    rw [hid]
    rw [node_order_getD stops.length (0 + i) (by omega),
      node_order_getD stops.length (0 + i + 1) (by omega)]
  · intro hpos hle
    rw [run_total_eq_build] at hpos hle
    rw [run_optimization_with_score _ _ _ _ _ _ _ hpos]
    apply round2_ge_one
    rw [le_div_iff₀ (by exact_mod_cast hpos), one_mul]
    exact_mod_cast hle

def stop_a : Stop :=
  { stop_id := "a", location := ⟨1, 1⟩, earliest_pickup := "00:00",
    latest_pickup := "23:59", service_time_minutes := 10 }

def stop_b : Stop :=
  { stop_id := "b", location := ⟨2, 2⟩, earliest_pickup := "00:00",
    latest_pickup := "23:59", service_time_minutes := 10 }

def tm_c6 : Mat := matOf [[0, 60, 6000], [60, 0, 60], [6000, 6000, 0]]

def dm_zero : Mat := matOf [[0, 0, 0], [0, 0, 0], [0, 0, 0]]

theorem C6_duration_bounds_witness :
    (([stop_a, stop_b] : List Stop).map (fun s => s.service_time_minutes)).sum ≤
      (run_optimization_with [0, 1] "d" ⟨0, 0⟩ [stop_a, stop_b] tm_c6 dm_zero
        ⟨2030, 6, 15, 9, 0⟩).total_duration_minutes :=
  (C6_duration_bounds [0, 1] "d" ⟨0, 0⟩ [stop_a, stop_b] tm_c6 dm_zero
    ⟨2030, 6, 15, 9, 0⟩ (by decide)).1

/-- C6 counterexample: with non-negative matrix entries and the reversed
permutation `[1, 0]` (a genuine permutation of the two stops) the
response's total duration is 220 min, far above the naive duration of
22 min, and the optimization score is 0.1 < 1. -/
theorem C6_counterexample_regressing_permutation :
    ([1, 0] : List Nat).Perm (List.range ([stop_a, stop_b] : List Stop).length) ∧
    compute_naive_duration tm_c6 [stop_a, stop_b] = 22 ∧
    (run_optimization_with [1, 0] "d" ⟨0, 0⟩ [stop_a, stop_b] tm_c6 dm_zero
        ⟨2030, 6, 15, 9, 0⟩).total_duration_minutes = 220 ∧
    (run_optimization_with [1, 0] "d" ⟨0, 0⟩ [stop_a, stop_b] tm_c6 dm_zero
        ⟨2030, 6, 15, 9, 0⟩).optimization_score < 1 := by
  refine ⟨by decide, by decide, by decide, ?_⟩
  have hpos : 0 < (build_final_route "d" ⟨0, 0⟩ (ordered_of [1, 0] [stop_a, stop_b])
      (reindex tm_c6 [1, 0]) (reindex dm_zero [1, 0])
      ⟨2030, 6, 15, 9, 0⟩).total_duration_minutes := by decide
  rw [run_optimization_with_score _ _ _ _ _ _ _ hpos]
  have h1 : compute_naive_duration tm_c6 [stop_a, stop_b] = 22 := by decide
  have h2 : (build_final_route "d" ⟨0, 0⟩ (ordered_of [1, 0] [stop_a, stop_b])
      (reindex tm_c6 [1, 0]) (reindex dm_zero [1, 0])
      ⟨2030, 6, 15, 9, 0⟩).total_duration_minutes = 220 := by decide
  have hq : ((compute_naive_duration tm_c6 [stop_a, stop_b] : ℚ) /
      ((build_final_route "d" ⟨0, 0⟩ (ordered_of [1, 0] [stop_a, stop_b])
          (reindex tm_c6 [1, 0]) (reindex dm_zero [1, 0])
          ⟨2030, 6, 15, 9, 0⟩).total_duration_minutes : ℚ)) = 1 / 10 := by
    rw [h1, h2]
    norm_num
  rw [hq]
  unfold round2
  have h3 : ((1 : ℚ) / 10 * 100 + 1 / 2).floor = 10 := by
    show ⌊(1 : ℚ) / 10 * 100 + 1 / 2⌋ = 10
    rw [Int.floor_eq_iff]
    norm_num
  rw [h3]
  norm_num

/-- C7: when the solver returns a permutation of `[0..n-1]`, the response's
stop ids are a permutation of the request's and the sequence fields are
exactly `1, 2, …, n` in list order. -/
theorem C7_permutation_and_sequences (stop_indices : List Nat)
    (driver_id : String) (driver_location : Location) (stops : List Stop)
    (tm dm : Mat) (dep : DateTime)
    (hperm : stop_indices.Perm (List.range stops.length)) :
    ((run_optimization_with stop_indices driver_id driver_location stops tm dm
          dep).optimized_stops.map (fun o => o.stop_id)).Perm
        (stops.map (fun s => s.stop_id)) ∧
    (run_optimization_with stop_indices driver_id driver_location stops tm dm
        dep).optimized_stops.map (fun o => o.sequence) =
      List.range' 1 stops.length := by
  constructor
  · rw [run_optimization_with_stops, assemble_map_stop_id]
    exact (ordered_of_perm _ _ hperm).map _
  · rw [run_optimization_with_stops, assemble_map_sequence,
      (ordered_of_perm _ _ hperm).length_eq]

theorem C7_permutation_and_sequences_witness :
    (run_optimization_with [1, 0] "d" ⟨0, 0⟩ [stop_a, stop_b] tm_c6 dm_zero
        ⟨2030, 6, 15, 9, 0⟩).optimized_stops.map (fun o => o.sequence) =
      List.range' 1 ([stop_a, stop_b] : List Stop).length :=
  (C7_permutation_and_sequences [1, 0] "d" ⟨0, 0⟩ [stop_a, stop_b] tm_c6 dm_zero
    ⟨2030, 6, 15, 9, 0⟩ (by decide)).2

lemma remaining_stops_defaults (st : DriverState) (l : List OptimizedStop)
    (h : st.current_route = l.map OptimizedStop.model_dump) :
    ∀ s ∈ remaining_stops st,
      s.earliest_pickup = "00:00" ∧ s.latest_pickup = "23:59" ∧
        s.service_time_minutes = 10 := by
  intro s hs
  simp only [remaining_stops, h, List.mem_map, List.mem_filter] at hs
  obtain ⟨e, ⟨⟨o, ho, rfl⟩, _⟩, rfl⟩ := hs
  exact ⟨rfl, rfl, rfl⟩

def st_c4 : DriverState :=
  { driver_id := "d1", current_route := [], last_gps := none,
    completed_stop_ids := [], remaining_duration := 0,
    original_remaining_duration := 0, schedule_delay_minutes := 0,
    last_reroute_timestamp := none, stops_changed := false, status := "active" }

def env_c4 : WorkerEnv :=
  { first_load := some st_c4, reload_after_complete := none, opt_result := none,
    now := 0, publish_available := true }

/-- C4 evaluated at the failing input: when the driver state is present at
the first load, a `completed_stop_id` is supplied, and the state has
disappeared by the reload in step 3, the task raises (the unguarded
`state.stops_changed = True` on `None`) instead of returning a structured
result. -/
theorem C4_reload_none_raises :
    (process_gps_update env_c4 "d1" 1 2 "2026-10-12T10:00:00Z"
        (some "s1")).result =
      Except.error "AttributeError: NoneType object has no attribute stops_changed" :=
  rfl

def entry_c5 : RouteEntry :=
  { stop_id := "s1", sequence := 1, location := ⟨1, 1⟩,
    arrival_time := "09:00", departure_time := "09:10",
    earliest_pickup := none, latest_pickup := none,
    service_time_minutes := none }

def st_c5 : DriverState :=
  { driver_id := "d1", current_route := [entry_c5], last_gps := none,
    completed_stop_ids := ["sX"], remaining_duration := 50,
    original_remaining_duration := 40, schedule_delay_minutes := 10,
    last_reroute_timestamp := none, stops_changed := false, status := "active" }

def env_c5 : WorkerEnv :=
  { first_load := some st_c5, reload_after_complete := some st_c5,
    opt_result := none, now := 1000, publish_available := true }

/-- C5 (amended): whenever the re-optimization call fails, the worker
returns `{rerouted: false, reason: "optimization_failed"}`, publishes
nothing, and the state it saves keeps the loaded values of
`current_route`, `remaining_duration` and `last_reroute_timestamp` (every
field except `stops_changed`, which step 3 sets to true when a completed
stop id was supplied). -/
theorem C5_optimization_failure_preserves_state (env : WorkerEnv)
    (driver_id : String) (lat lng : ℚ) (ts : String)
    (completed : Option String) (st0 loaded : DriverState)
    (h1 : env.first_load = some st0)
    (h2 : (if completed.getD "" ≠ "" then env.reload_after_complete
        else some st0) = some loaded)
    (h3 : (should_reroute default_settings env.now
        (if completed.getD "" ≠ "" then { loaded with stops_changed := true }
          else loaded)).1 = true)
    (h4 : (remaining_stops
        (if completed.getD "" ≠ "" then { loaded with stops_changed := true }
          else loaded)).isEmpty = false)
    (h5 : env.opt_result = none) :
    (process_gps_update env driver_id lat lng ts completed).result =
        Except.ok ⟨false, "optimization_failed"⟩ ∧
    (∃ saved, (process_gps_update env driver_id lat lng ts completed).saved =
        some saved ∧
      saved.current_route = loaded.current_route ∧
      saved.remaining_duration = loaded.remaining_duration ∧
      saved.last_reroute_timestamp = loaded.last_reroute_timestamp) ∧
    (process_gps_update env driver_id lat lng ts completed).published = none := by
  obtain ⟨fl, rl, orr, now, pa⟩ := env
  simp only at h1 h2 h3 h4 h5
  subst h1
  subst h5
  by_cases hc : completed.getD "" ≠ ""
  · rw [if_pos hc] at h2 h3 h4
    subst h2
    simp only [process_gps_update, gps_steps_4_onward, if_pos hc, h3, h4,
      Bool.true_eq_false, if_false, Bool.false_eq_true]
    exact ⟨trivial, ⟨_, rfl, rfl, rfl, rfl⟩, trivial⟩
  · rw [if_neg hc] at h2 h3 h4
    have hl : loaded = st0 := by
      injection h2 with h2'
      exact h2'.symm
    subst hl
    simp only [process_gps_update, gps_steps_4_onward, if_neg hc, h3, h4,
      Bool.true_eq_false, if_false, Bool.false_eq_true]
    exact ⟨trivial, ⟨_, rfl, rfl, rfl, rfl⟩, trivial⟩

theorem C5_optimization_failure_witness :
    (process_gps_update env_c5 "d1" 1 2 "t" (some "sX")).result =
      Except.ok ⟨false, "optimization_failed"⟩ :=
  (C5_optimization_failure_preserves_state env_c5 "d1" 1 2 "t" (some "sX")
    st_c5 st_c5 rfl (by decide) (by decide) (by decide) rfl).1

/-- C5 counterexample to "the driver state it saves is preserved
unchanged": when a completed stop id was supplied on the same update, the
state saved on the failure path carries `stops_changed = true`, which
differs from the loaded state. -/
theorem C5_counterexample_stops_changed_mutated :
    (process_gps_update env_c5 "d1" 1 2 "t" (some "sX")).result =
        Except.ok ⟨false, "optimization_failed"⟩ ∧
    (process_gps_update env_c5 "d1" 1 2 "t" (some "sX")).saved =
        some { st_c5 with stops_changed := true } ∧
    (process_gps_update env_c5 "d1" 1 2 "t" (some "sX")).saved ≠ some st_c5 := by
  refine ⟨rfl, rfl, ?_⟩
  intro h
  have h2 : ({ st_c5 with stops_changed := true } : DriverState) = st_c5 := by
    have h1 : (process_gps_update env_c5 "d1" 1 2 "t" (some "sX")).saved =
        some { st_c5 with stops_changed := true } := rfl
    rw [h1] at h
    injection h
  exact absurd (congrArg DriverState.stops_changed h2) (by decide)

def resp_c10 : OptimizeRouteResponse :=
  { driver_id := "d1",
    optimized_stops :=
      [{ stop_id := "s1", sequence := 1, location := ⟨1, 1⟩,
         arrival_time := "09:00", departure_time := "09:10" }],
    total_distance_km := 1, total_duration_minutes := 30,
    google_maps_url := "https://www.google.com/maps/dir/1,1",
    optimization_score := 1 }

def env_c10 : WorkerEnv :=
  { first_load := some st_c5, reload_after_complete := some st_c5,
    opt_result := some resp_c10, now := 1000, publish_available := true }

/-- C10: after a successful re-route the worker persists the new route as
`OptimizedStop.model_dump()` records, which carry no pickup-window or
service-time keys, so any later `_remaining_stops` read of that state
yields only the defaults: window `00:00`–`23:59` and 10-minute service. -/
theorem C10_persisted_route_loses_windows (env : WorkerEnv)
    (driver_id : String) (lat lng : ℚ) (ts : String)
    (completed : Option String) (st0 loaded : DriverState)
    (resp : OptimizeRouteResponse)
    (h1 : env.first_load = some st0)
    (h2 : (if completed.getD "" ≠ "" then env.reload_after_complete
        else some st0) = some loaded)
    (h3 : (should_reroute default_settings env.now
        (if completed.getD "" ≠ "" then { loaded with stops_changed := true }
          else loaded)).1 = true)
    (h4 : (remaining_stops
        (if completed.getD "" ≠ "" then { loaded with stops_changed := true }
          else loaded)).isEmpty = false)
    (h5 : env.opt_result = some resp) :
    ∃ saved, (process_gps_update env driver_id lat lng ts completed).saved =
        some saved ∧
      saved.current_route = resp.optimized_stops.map OptimizedStop.model_dump ∧
      ∀ s ∈ remaining_stops saved,
        s.earliest_pickup = "00:00" ∧ s.latest_pickup = "23:59" ∧
          s.service_time_minutes = 10 := by
  obtain ⟨fl, rl, orr, now, pa⟩ := env
  simp only at h1 h2 h3 h4 h5
  subst h1
  subst h5
  by_cases hc : completed.getD "" ≠ ""
  · rw [if_pos hc] at h2 h3 h4
    subst h2
    simp only [process_gps_update, gps_steps_4_onward, if_pos hc, h3, h4,
      Bool.true_eq_false, if_false, Bool.false_eq_true]
    exact ⟨_, rfl, rfl, remaining_stops_defaults _ resp.optimized_stops rfl⟩
  · rw [if_neg hc] at h2 h3 h4
    have hl : loaded = st0 := by
      injection h2 with h2'
      exact h2'.symm
    subst hl
    simp only [process_gps_update, gps_steps_4_onward, if_neg hc, h3, h4,
      Bool.true_eq_false, if_false, Bool.false_eq_true]
    exact ⟨_, rfl, rfl, remaining_stops_defaults _ resp.optimized_stops rfl⟩

theorem C10_persisted_route_loses_windows_witness :
    ∃ saved, (process_gps_update env_c10 "d1" 1 2 "t" (some "sX")).saved =
        some saved ∧
      saved.current_route = resp_c10.optimized_stops.map OptimizedStop.model_dump ∧
      ∀ s ∈ remaining_stops saved,
        s.earliest_pickup = "00:00" ∧ s.latest_pickup = "23:59" ∧
          s.service_time_minutes = 10 :=
  C10_persisted_route_loses_windows env_c10 "d1" 1 2 "t" (some "sX") st_c5 st_c5
    resp_c10 rfl (by decide) (by decide) (by decide) rfl

end RoutingMaps
